import Mathlib

/-!
Shallow embedding of the iOS-Media-Metadata-Forge backend
(src/后端/实况部分后端处理/dt_app.py — the Live-Photo pairing service — and
src/后端/视频部分后端处理/app.py — the video-only metadata service).

Python string primitives are modelled on `String.data` (a `List Char`):
`str.strip()` / `str.upper()` / `str.lower()` are modelled for the ASCII
range (the inputs the services normalize — extensions, form fields — are
handled identically by Python there), and `s[-n:]` is `pyLast n s`.
-/

/-- Python `str.isspace` characters relevant to `str.strip()` (ASCII range). -/
def pyIsSpace (c : Char) : Bool :=
  c == ' ' || c == '\t' || c == '\n' || c == '\r' || c == '\x0b' || c == '\x0c'

/-- List-level `strip`: drop whitespace from both ends. -/
def stripL (l : List Char) : List Char :=
  ((l.dropWhile pyIsSpace).reverse.dropWhile pyIsSpace).reverse

/-- Python `s.strip()`. -/
def pyStrip (s : String) : String := ⟨stripL s.data⟩

/-- Python `s.upper()` (ASCII letters). -/
def pyUpper (s : String) : String := ⟨s.data.map Char.toUpper⟩

/-- Python `s.lower()` (ASCII letters). -/
def pyLower (s : String) : String := ⟨s.data.map Char.toLower⟩

/-- Python `s[-n:]`: the last `n` characters (all of `s` if it is shorter). -/
def pyLast (n : Nat) (s : String) : String := ⟨(s.data.reverse.take n).reverse⟩

/-- Python `c in s` for a single character. -/
def pyContains (s : String) (c : Char) : Bool := s.data.contains c

/-- Python `filename.rsplit(".", 1)[1]`: the substring after the last dot
(meaningful only when the string contains a dot, as in both sources). -/
def extAfterLastDot (s : String) : String :=
  ⟨(s.data.reverse.takeWhile (fun c => c != '.')).reverse⟩

/-- dt_app.py: `ALLOWED_VIDEO_EXT = {"mp4", "mov"}`. -/
def ALLOWED_VIDEO_EXT : List String := ["mp4", "mov"]

/-- dt_app.py: `ALLOWED_IMAGE_EXT = {"jpg", "jpeg", "png", "heic", "heif", "webp"}`. -/
def ALLOWED_IMAGE_EXT : List String := ["jpg", "jpeg", "png", "heic", "heif", "webp"]

/-- app.py: `ALLOWED_EXTENSIONS = {"mp4", "mov"}`. -/
def ALLOWED_EXTENSIONS : List String := ["mp4", "mov"]

/-- dt_app.py `allowed_video`:
`"." in filename and filename.rsplit(".", 1)[1].lower() in ALLOWED_VIDEO_EXT`. -/
def allowed_video (filename : String) : Bool :=
  pyContains filename '.' && ALLOWED_VIDEO_EXT.contains (pyLower (extAfterLastDot filename))

/-- dt_app.py `allowed_image`. -/
def allowed_image (filename : String) : Bool :=
  pyContains filename '.' && ALLOWED_IMAGE_EXT.contains (pyLower (extAfterLastDot filename))

/-- app.py `allowed_file`. -/
def allowed_file (filename : String) : Bool :=
  pyContains filename '.' && ALLOWED_EXTENSIONS.contains (pyLower (extAfterLastDot filename))

/-- Both services: `CLEANUP_DELAY_SEC = 300`. -/
def CLEANUP_DELAY_SEC : Nat := 300

/-!
Tag plans. Each exiftool argument `-Tag=Value` is embedded as the pair
`(Tag, Value)`; the list keeps the exact argument order of the source
(exiftool applies the operations left to right in the one invocation).
An empty value models the cleansing form `-Tag=`.
-/

/-- dt_app.py `inject_video_metadata`: the ordered tag assignments passed to
exiftool (after `-overwrite_original -P`), verbatim from the source. -/
def inject_video_metadata_tags (make model date asset_id : String) :
    List (String × String) :=
  [ ("QuickTime:HandlerName", ""),
    ("QuickTime:VideoHandlerName", ""),
    ("QuickTime:AudioHandlerName", ""),
    ("QuickTime:Encoder", ""),
    ("QuickTime:HandlerName", "Core Media Video"),
    ("QuickTime:VideoHandlerName", "Core Media Video"),
    ("QuickTime:AudioHandlerName", "Core Media Audio"),
    ("QuickTime:Make", make),
    ("QuickTime:Model", model),
    ("Keys:Make", make),
    ("Keys:Model", model),
    ("UserData:Make", make),
    ("UserData:Model", model),
    ("com.apple.quicktime.make", make),
    ("com.apple.quicktime.model", model),
    ("QuickTime:CreationDate", date),
    ("com.apple.quicktime.creationdate", date),
    ("CreateDate", date),
    ("DateTimeOriginal", date),
    ("TrackCreateDate", date),
    ("MediaCreateDate", date),
    ("ContentIdentifier", asset_id),
    ("Keys:ContentIdentifier", asset_id),
    ("com.apple.quicktime.content.identifier", asset_id),
    ("Keys:StillImageTime", "0") ]

/-- app.py `inject_metadata`: the ordered tag assignments passed to exiftool,
verbatim from the source. -/
def inject_metadata_tags (make model date : String) : List (String × String) :=
  [ ("QuickTime:HandlerName", ""),
    ("QuickTime:VideoHandlerName", ""),
    ("QuickTime:AudioHandlerName", ""),
    ("QuickTime:Encoder", ""),
    ("QuickTime:HandlerName", "Core Media Video"),
    ("QuickTime:VideoHandlerName", "Core Media Video"),
    ("QuickTime:AudioHandlerName", "Core Media Audio"),
    ("QuickTime:Make", make),
    ("QuickTime:Model", model),
    ("Keys:Make", make),
    ("Keys:Model", model),
    ("UserData:Make", make),
    ("UserData:Model", model),
    ("com.apple.quicktime.make", make),
    ("com.apple.quicktime.model", model),
    ("QuickTime:CreationDate", date),
    ("com.apple.quicktime.creationdate", date),
    ("CreateDate", date),
    ("DateTimeOriginal", date),
    ("TrackCreateDate", date),
    ("MediaCreateDate", date) ]

/-- dt_app.py `inject_image_metadata`: the ordered tag assignments passed to
exiftool, verbatim from the source. -/
def inject_image_metadata_tags (make model date asset_id aperture focal focal35
    iso lens width height : String) : List (String × String) :=
  [ ("Make", make),
    ("Model", model),
    ("DateTime", date),
    ("DateTimeOriginal", date),
    ("CreateDate", date),
    ("LensModel", lens),
    ("FNumber", aperture),
    ("FocalLength", focal),
    ("FocalLengthIn35mmFormat", focal35),
    ("ISO", iso),
    ("ExifImageWidth", width),
    ("ExifImageHeight", height),
    ("CustomRendered", "6"),
    ("Apple:ContentIdentifier", asset_id),
    ("XMP-apple-fi:ContentIdentifier", asset_id),
    ("XMP:ContentIdentifier", asset_id) ]

/-- All values a plan assigns to one tag, in write order. -/
def valuesFor (plan : List (String × String)) (tag : String) : List String :=
  (plan.filter (fun e => e.1 == tag)).map Prod.snd

/-- The four namespaces the video plans write `Make` into. -/
def makeTags : List String :=
  ["QuickTime:Make", "Keys:Make", "UserData:Make", "com.apple.quicktime.make"]

/-- The four namespaces the video plans write `Model` into. -/
def modelTags : List String :=
  ["QuickTime:Model", "Keys:Model", "UserData:Model", "com.apple.quicktime.model"]

/-- The six date fields the video plans write. -/
def dateTags : List String :=
  ["QuickTime:CreationDate", "com.apple.quicktime.creationdate", "CreateDate",
   "DateTimeOriginal", "TrackCreateDate", "MediaCreateDate"]

/-!
Request model for the pairing endpoint `/api/process-live` (dt_app.py).
A multipart request is a pair of optional file fields plus a form map;
the form is an association list (first match wins, like `request.form.get`).
-/

/-- Python `request.form.get(key, default)`. -/
def formGet (form : List (String × String)) (key dflt : String) : String :=
  match form.find? (fun kv => kv.1 == key) with
  | some kv => kv.2
  | none => dflt

/-- A request to `/api/process-live`: presence of the two file fields, their
filenames (empty string models Flask's empty `filename`), and the form. -/
structure LiveRequest where
  hasPhoto : Bool
  hasVideo : Bool
  photoFilename : String
  videoFilename : String
  form : List (String × String)
deriving DecidableEq

/-- The parameters `process_live` extracts from a request (dt_app.py
lines 331–354 and 359–360). `photo_ext`/`video_ext` are the lowercased
substrings after the last dot of the filenames (werkzeug's
`secure_filename` preserves the final alphanumeric extension of every
filename that passes the extension allowlist, so it is elided here). -/
structure LiveParams where
  make : String
  model : String
  date : String
  asset_id : String
  aperture : String
  focal : String
  focal35 : String
  iso : String
  lens : String
  width : String
  height : String
  photo_ext : String
  video_ext : String
deriving DecidableEq

/-- dt_app.py lines 331–360: field extraction, `asset_id` normalization
(`strip().upper()`), and the optional-parameter defaults. -/
def liveParams (req : LiveRequest) : LiveParams :=
  let model := pyStrip (formGet req.form "model" "")
  { make := pyStrip (formGet req.form "make" "")
    model := model
    date := pyStrip (formGet req.form "date" "")
    asset_id := pyUpper (pyStrip (formGet req.form "asset_id" ""))
    aperture := pyStrip (formGet req.form "aperture" "1.78")
    focal := pyStrip (formGet req.form "focal" "24")
    focal35 := pyStrip (formGet req.form "focal35" "24")
    iso := pyStrip (formGet req.form "iso" "100")
    lens := pyStrip (formGet req.form "lens" (model ++ " 后置摄像头"))
    width := pyStrip (formGet req.form "width" "4032")
    height := pyStrip (formGet req.form "height" "3024")
    photo_ext := pyLower (extAfterLastDot req.photoFilename)
    video_ext := pyLower (extAfterLastDot req.videoFilename) }

/-- dt_app.py lines 338–341: the required fields that are empty, in the
source's dict order. -/
def missingRequired (p : LiveParams) : List String :=
  ([("make", p.make), ("model", p.model), ("date", p.date),
    ("asset_id", p.asset_id)].filter (fun kv => kv.2 == "")).map Prod.fst

/-- dt_app.py lines 317–343: the validation section of `process_live`, with
each early `return jsonify({"error": …}), 400` as an `Except.error`. -/
def validateLive (req : LiveRequest) : Except String LiveParams :=
  if !(req.hasPhoto && req.hasVideo) then
    .error "需要同时上传 photo 和 video 字段"
  else if req.photoFilename == "" || req.videoFilename == "" then
    .error "文件名不能为空"
  else if !allowed_image req.photoFilename then
    .error "图片仅支持 jpg/jpeg/png/heic/heif/webp"
  else if !allowed_video req.videoFilename then
    .error "视频仅支持 mp4/mov"
  else
    match missingRequired (liveParams req) with
    | [] => .ok (liveParams req)
    | ms => .error ("缺少必填参数：" ++ String.intercalate ", " ms)

/-!
Execution model. External processes (file saves, ffmpeg, exiftool, zip)
are oracles: each call either succeeds, exits non-zero with some stderr,
or exceeds its timeout. Whether a failed tool left a partially written
output file behind is environment behaviour and is a further oracle bit.
Modelling assumptions (stated once): a failed `save` creates nothing; the
background deletion threads spawned by `schedule_delete` have not yet
removed anything by the time a later `cleanup_all` runs (so `os.path.exists`
still sees every file written so far — `cleanup_all` then schedules a
superset, which only adds duplicates).
-/

/-- Result of one external tool invocation. -/
inductive ToolResult where
  | ok : ToolResult
  | fail : String → ToolResult
  | timeout : ToolResult
deriving DecidableEq

/-- Oracle for every effectful step of one `/api/process-live` request. -/
structure LiveOracle where
  savePhotoOk : Bool
  saveVideoOk : Bool
  conv : ToolResult
  convOutExists : Bool
  remux : ToolResult
  remuxOutExists : Bool
  injPhoto : ToolResult
  injVideo : ToolResult
  zipOk : Bool
  zipOutExists : Bool
  timeoutText : String
  osText : String
deriving DecidableEq

/-- Observable outcome of one request: HTTP status, error body, the scratch
files created (in creation order), every `schedule_delete` call as a
`(path, delay)` pair in call order, the exiftool argument lists used, the
archive's entry names and compression, and the file streamed back. -/
structure LiveOutcome where
  status : Nat
  error : Option String := none
  written : List String := []
  scheduled : List (String × Nat) := []
  convRan : Bool := false
  imageArgs : Option (List (String × String)) := none
  videoArgs : Option (List (String × String)) := none
  zipEntries : Option (List String) := none
  zipStored : Bool := false
  sent : Option String := none
deriving DecidableEq

/-- Per-request scratch paths (dt_app.py lines 357–366 and 388). -/
structure LivePaths where
  src_photo : String
  src_video : String
  out_photo : String
  out_video : String
  out_zip : String
  conv_photo : String
deriving DecidableEq

/-- dt_app.py lines 362–366, 388. -/
def livePaths (p : LiveParams) (uid : String) : LivePaths :=
  { src_photo := "uploads_dt/src_photo_" ++ uid ++ "." ++ p.photo_ext
    src_video := "uploads_dt/src_video_" ++ uid ++ "." ++ p.video_ext
    out_photo := "uploads_dt/out_photo_" ++ uid ++ ".jpg"
    out_video := "uploads_dt/out_video_" ++ uid ++ ".mov"
    out_zip := "uploads_dt/live_" ++ uid ++ ".zip"
    conv_photo := "uploads_dt/conv_photo_" ++ uid ++ ".jpg" }

/-- dt_app.py `cleanup_all`: schedule immediate deletion of every tracked
temp file that exists, in `tmp_files` order. -/
def cleanupAll (tmp fs : List String) : List (String × Nat) :=
  (tmp.filter (fun f => fs.contains f)).map (fun f => (f, 0))

/-- dt_app.py line 387: the image is converted unless its extension is
already jpg/jpeg. -/
def needs_conversion (ext : String) : Bool :=
  !(["jpg", "jpeg"] : List String).contains ext

/-- The image plan `process_live` passes to `inject_image_metadata`. -/
def imagePlanOf (p : LiveParams) : List (String × String) :=
  inject_image_metadata_tags p.make p.model p.date p.asset_id p.aperture
    p.focal p.focal35 p.iso p.lens p.width p.height

/-- The video plan `process_live` passes to `inject_video_metadata`. -/
def videoPlanOf (p : LiveParams) : List (String × String) :=
  inject_video_metadata_tags p.make p.model p.date p.asset_id

/-- dt_app.py section 9–11: ZIP packaging (`zipfile.ZIP_STORED`, fixed
arcnames), the delayed-cleanup hook, and the response. -/
def liveZipStage (p : LiveParams) (P : LivePaths) (o : LiveOracle)
    (tmp fs : List String) (sched : List (String × Nat)) (cv : Bool) :
    LiveOutcome :=
  if o.zipOk then
    { status := 200
      written := fs ++ [P.out_zip]
      scheduled := sched ++ [(P.out_photo, 0), (P.out_video, 0),
                             (P.out_zip, CLEANUP_DELAY_SEC)]
      convRan := cv
      imageArgs := some (imagePlanOf p)
      videoArgs := some (videoPlanOf p)
      zipEntries := some ["IMG_LIVE.JPG", "IMG_LIVE.MOV"]
      zipStored := true
      sent := some P.out_zip }
  else
    let fs1 := fs ++ (if o.zipOutExists then [P.out_zip] else [])
    { status := 500
      error := some ("ZIP 打包失败：" ++ o.osText)
      written := fs1
      scheduled := sched ++ cleanupAll tmp fs1
      convRan := cv
      imageArgs := some (imagePlanOf p)
      videoArgs := some (videoPlanOf p) }

/-- dt_app.py section 8: video metadata injection. -/
def liveInjectVideoStage (p : LiveParams) (P : LivePaths) (o : LiveOracle)
    (tmp fs : List String) (sched : List (String × Nat)) (cv : Bool) :
    LiveOutcome :=
  match o.injVideo with
  | .fail stderr =>
      { status := 500
        error := some ("视频处理失败：ExifTool 视频注入失败：" ++ pyLast 200 stderr)
        written := fs
        scheduled := sched ++ cleanupAll tmp fs
        convRan := cv
        imageArgs := some (imagePlanOf p)
        videoArgs := some (videoPlanOf p) }
  | .timeout =>
      { status := 500
        error := some ("视频处理失败：" ++ o.timeoutText)
        written := fs
        scheduled := sched ++ cleanupAll tmp fs
        convRan := cv
        imageArgs := some (imagePlanOf p)
        videoArgs := some (videoPlanOf p) }
  | .ok => liveZipStage p P o tmp fs sched cv

/-- dt_app.py section 7: image metadata injection. -/
def liveInjectPhotoStage (p : LiveParams) (P : LivePaths) (o : LiveOracle)
    (tmp fs : List String) (sched : List (String × Nat)) (cv : Bool) :
    LiveOutcome :=
  match o.injPhoto with
  | .fail stderr =>
      { status := 500
        error := some ("图片处理失败：ExifTool 图片注入失败：" ++ pyLast 200 stderr)
        written := fs
        scheduled := sched ++ cleanupAll tmp fs
        convRan := cv
        imageArgs := some (imagePlanOf p) }
  | .timeout =>
      { status := 500
        error := some ("图片处理失败：" ++ o.timeoutText)
        written := fs
        scheduled := sched ++ cleanupAll tmp fs
        convRan := cv
        imageArgs := some (imagePlanOf p) }
  | .ok => liveInjectVideoStage p P o tmp fs sched cv

/-- dt_app.py section 6: ffmpeg remux of the video into MOV. The `finally`
block schedules `src_video` after the `except` bodies have run
`cleanup_all`. -/
def liveRemuxStage (p : LiveParams) (P : LivePaths) (o : LiveOracle)
    (tmp fs : List String) (sched : List (String × Nat)) (cv : Bool) :
    LiveOutcome :=
  match o.remux with
  | .fail stderr =>
      let fs1 := fs ++ (if o.remuxOutExists then [P.out_video] else [])
      { status := 500
        error := some ("FFmpeg 重封装失败：" ++ pyLast 300 (pyLast 1000 stderr))
        written := fs1
        scheduled := sched ++ cleanupAll tmp fs1 ++ [(P.src_video, 0)]
        convRan := cv }
  | .timeout =>
      let fs1 := fs ++ (if o.remuxOutExists then [P.out_video] else [])
      { status := 500
        error := some "FFmpeg 处理超时（>5 分钟）"
        written := fs1
        scheduled := sched ++ cleanupAll tmp fs1 ++ [(P.src_video, 0)]
        convRan := cv }
  | .ok =>
      liveInjectPhotoStage p P o tmp (fs ++ [P.out_video])
        (sched ++ [(P.src_video, 0)]) cv

/-- dt_app.py sections 3–11 after validation: saves, the conditional image
conversion (section 5; its `try` catches only `RuntimeError`, so a
conversion timeout propagates to Flask's generic 500 handler with only the
`finally` deletion of `current_photo` performed), remux, the two
injections, packaging, and the response. -/
def runLive (p : LiveParams) (uid : String) (o : LiveOracle) : LiveOutcome :=
  let P := livePaths p uid
  let tmp0 := [P.src_photo, P.src_video, P.out_photo, P.out_video, P.out_zip]
  if !o.savePhotoOk then
    { status := 500, error := some ("文件保存失败：" ++ o.osText) }
  else if !o.saveVideoOk then
    { status := 500, error := some ("文件保存失败：" ++ o.osText)
      written := [P.src_photo], scheduled := [(P.src_photo, 0)] }
  else
    let fs0 := [P.src_photo, P.src_video]
    if needs_conversion p.photo_ext then
      let tmp1 := tmp0 ++ [P.conv_photo]
      match o.conv with
      | .fail stderr =>
          let fs1 := fs0 ++ (if o.convOutExists then [P.conv_photo] else [])
          { status := 500
            error := some ("图片格式转换失败：" ++ pyLast 200 stderr)
            written := fs1
            scheduled := cleanupAll tmp1 fs1 ++ [(P.src_photo, 0)]
            convRan := true }
      | .timeout =>
          let fs1 := fs0 ++ (if o.convOutExists then [P.conv_photo] else [])
          { status := 500
            error := some "服务器内部错误"
            written := fs1
            scheduled := [(P.src_photo, 0)]
            convRan := true }
      | .ok =>
          liveRemuxStage p P o tmp1 (fs0 ++ [P.conv_photo, P.out_photo])
            [(P.src_photo, 0), (P.conv_photo, 0)] true
    else
      liveRemuxStage p P o tmp0 (fs0 ++ [P.out_photo]) [(P.src_photo, 0)] false

/-- dt_app.py `process_live`: validation, then the effectful pipeline. -/
def process_live (req : LiveRequest) (uid : String) (o : LiveOracle) :
    LiveOutcome :=
  match validateLive req with
  | .error msg => { status := 400, error := some msg }
  | .ok p => runLive p uid o

/-!
Request model for the video-only endpoint `/api/process-video` (app.py).
-/

/-- A request to `/api/process-video`. -/
structure VideoRequest where
  hasFile : Bool
  filename : String
  form : List (String × String)
deriving DecidableEq

/-- The parameters `process_video` extracts (app.py lines 215–217, 225). -/
structure VideoParams where
  make : String
  model : String
  date : String
  src_ext : String
deriving DecidableEq

/-- app.py lines 215–217 and 225. -/
def videoParams (req : VideoRequest) : VideoParams :=
  { make := pyStrip (formGet req.form "make" "")
    model := pyStrip (formGet req.form "model" "")
    date := pyStrip (formGet req.form "date" "")
    src_ext := pyLower (extAfterLastDot req.filename) }

/-- app.py line 219: required fields that are empty, in dict order. -/
def missingRequired3 (p : VideoParams) : List String :=
  ([("make", p.make), ("model", p.model), ("date", p.date)].filter
    (fun kv => kv.2 == "")).map Prod.fst

/-- app.py lines 206–221: the validation section of `process_video`. -/
def validateVideo (req : VideoRequest) : Except String VideoParams :=
  if !req.hasFile then .error "缺少 file 字段"
  else if req.filename == "" then .error "未选择文件"
  else if !allowed_file req.filename then .error "仅支持 mp4 / mov 格式"
  else
    match missingRequired3 (videoParams req) with
    | [] => .ok (videoParams req)
    | ms => .error ("缺少必填参数：" ++ String.intercalate ", " ms)

/-- Oracle for the effectful steps of one `/api/process-video` request. -/
structure VideoOracle where
  saveOk : Bool
  remux : ToolResult
  remuxOutExists : Bool
  inj : ToolResult
  timeoutText : String
  osText : String
deriving DecidableEq

/-- Observable outcome of one `/api/process-video` request. -/
structure VideoOutcome where
  status : Nat
  error : Option String := none
  written : List String := []
  scheduled : List (String × Nat) := []
  videoArgs : Option (List (String × String)) := none
  sent : Option String := none
deriving DecidableEq

/-- app.py sections 3–7 after validation. On remux failure or timeout, only
the `finally` deletion of `src` runs — the partially written `out` file of
the failed remux is never scheduled. Injection failure additionally
schedules `out` immediately. -/
def runVideo (p : VideoParams) (uid : String) (o : VideoOracle) :
    VideoOutcome :=
  let src := "uploads/src_" ++ uid ++ "." ++ p.src_ext
  let out := "uploads/out_" ++ uid ++ ".mov"
  if !o.saveOk then
    { status := 500, error := some ("文件保存失败：" ++ o.osText) }
  else
    match o.remux with
    | .fail stderr =>
        { status := 500
          error := some ("FFmpeg 重封装失败：" ++ pyLast 300 (pyLast 1000 stderr))
          written := [src] ++ (if o.remuxOutExists then [out] else [])
          scheduled := [(src, 0)] }
    | .timeout =>
        { status := 500
          error := some "FFmpeg 处理超时（>5 分钟）"
          written := [src] ++ (if o.remuxOutExists then [out] else [])
          scheduled := [(src, 0)] }
    | .ok =>
        match o.inj with
        | .fail stderr =>
            { status := 500
              error := some ("ExifTool 注入失败：" ++ pyLast 200 stderr)
              written := [src, out]
              scheduled := [(src, 0), (out, 0)]
              videoArgs := some (inject_metadata_tags p.make p.model p.date) }
        | .timeout =>
            { status := 500
              error := some "ExifTool 处理超时"
              written := [src, out]
              scheduled := [(src, 0), (out, 0)]
              videoArgs := some (inject_metadata_tags p.make p.model p.date) }
        | .ok =>
            { status := 200
              written := [src, out]
              scheduled := [(src, 0), (out, CLEANUP_DELAY_SEC)]
              videoArgs := some (inject_metadata_tags p.make p.model p.date)
              sent := some out }

/-- app.py `process_video`: validation, then the effectful pipeline. -/
def process_video (req : VideoRequest) (uid : String) (o : VideoOracle) :
    VideoOutcome :=
  match validateVideo req with
  | .error msg => { status := 400, error := some msg }
  | .ok p => runVideo p uid o

/-!
Concrete sample requests and oracles, used by the witness and
counterexample theorems below.
-/

/-- Oracle in which every external step succeeds. -/
def okLiveOracle : LiveOracle :=
  { savePhotoOk := true, saveVideoOk := true
    conv := .ok, convOutExists := false
    remux := .ok, remuxOutExists := false
    injPhoto := .ok, injVideo := .ok
    zipOk := true, zipOutExists := false
    timeoutText := "Command timed out after 60 seconds"
    osText := "disk full" }

/-- A valid pairing request using the spec's scenario values, with a JPEG
photo and no optional shot parameters. -/
def sampleLiveReq : LiveRequest :=
  { hasPhoto := true, hasVideo := true
    photoFilename := "a.jpg", videoFilename := "b.mov"
    form := [("make", "Apple"), ("model", "iPhone 17 Pro Max"),
             ("date", "2026:02:22 12:00:00"), ("asset_id", "  ab12-cd34  ")] }

/-- The same request with a PNG photo. -/
def pngLiveReq : LiveRequest :=
  { sampleLiveReq with photoFilename := "a.png" }

/-- A valid video-only request. -/
def sampleVideoReq : VideoRequest :=
  { hasFile := true, filename := "b.mp4"
    form := [("make", "Apple"), ("model", "iPhone 17 Pro Max"),
             ("date", "2026:02:22 12:00:00")] }

/-- All-success oracle for the video-only pipeline. -/
def okVideoOracle : VideoOracle :=
  { saveOk := true, remux := .ok, remuxOutExists := false, inj := .ok
    timeoutText := "Command timed out after 60 seconds"
    osText := "disk full" }

/-!
Helper lemmas.
-/

/-- A successful packaging stage: the recorded exiftool plans, the archive's
entry names, and the store-only compression flag. -/
lemma liveZipStage_success {p : LiveParams} {P : LivePaths} {o : LiveOracle}
    {tmp fs : List String} {sched : List (String × Nat)} {cv : Bool}
    (h : (liveZipStage p P o tmp fs sched cv).status = 200) :
    (liveZipStage p P o tmp fs sched cv).imageArgs = some (imagePlanOf p) ∧
    (liveZipStage p P o tmp fs sched cv).videoArgs = some (videoPlanOf p) ∧
    (liveZipStage p P o tmp fs sched cv).zipEntries
      = some ["IMG_LIVE.JPG", "IMG_LIVE.MOV"] ∧
    (liveZipStage p P o tmp fs sched cv).zipStored = true := by
  unfold liveZipStage at h ⊢
  split at h <;> simp_all

/-- Success propagates through the video-injection stage. -/
lemma liveInjectVideoStage_success {p : LiveParams} {P : LivePaths}
    {o : LiveOracle} {tmp fs : List String} {sched : List (String × Nat)}
    {cv : Bool}
    (h : (liveInjectVideoStage p P o tmp fs sched cv).status = 200) :
    (liveInjectVideoStage p P o tmp fs sched cv).imageArgs
      = some (imagePlanOf p) ∧
    (liveInjectVideoStage p P o tmp fs sched cv).videoArgs
      = some (videoPlanOf p) ∧
    (liveInjectVideoStage p P o tmp fs sched cv).zipEntries
      = some ["IMG_LIVE.JPG", "IMG_LIVE.MOV"] ∧
    (liveInjectVideoStage p P o tmp fs sched cv).zipStored = true := by
  unfold liveInjectVideoStage at h ⊢
  cases hiv : o.injVideo with
  | fail s => simp [hiv] at h
  | timeout => simp [hiv] at h
  | ok => rw [hiv] at h; exact liveZipStage_success h

/-- Success propagates through the image-injection stage. -/
lemma liveInjectPhotoStage_success {p : LiveParams} {P : LivePaths}
    {o : LiveOracle} {tmp fs : List String} {sched : List (String × Nat)}
    {cv : Bool}
    (h : (liveInjectPhotoStage p P o tmp fs sched cv).status = 200) :
    (liveInjectPhotoStage p P o tmp fs sched cv).imageArgs
      = some (imagePlanOf p) ∧
    (liveInjectPhotoStage p P o tmp fs sched cv).videoArgs
      = some (videoPlanOf p) ∧
    (liveInjectPhotoStage p P o tmp fs sched cv).zipEntries
      = some ["IMG_LIVE.JPG", "IMG_LIVE.MOV"] ∧
    (liveInjectPhotoStage p P o tmp fs sched cv).zipStored = true := by
  unfold liveInjectPhotoStage at h ⊢
  cases hip : o.injPhoto with
  | fail s => simp [hip] at h
  | timeout => simp [hip] at h
  | ok => rw [hip] at h; exact liveInjectVideoStage_success h

/-- Success propagates through the remux stage. -/
lemma liveRemuxStage_success {p : LiveParams} {P : LivePaths} {o : LiveOracle}
    {tmp fs : List String} {sched : List (String × Nat)} {cv : Bool}
    (h : (liveRemuxStage p P o tmp fs sched cv).status = 200) :
    (liveRemuxStage p P o tmp fs sched cv).imageArgs = some (imagePlanOf p) ∧
    (liveRemuxStage p P o tmp fs sched cv).videoArgs = some (videoPlanOf p) ∧
    (liveRemuxStage p P o tmp fs sched cv).zipEntries
      = some ["IMG_LIVE.JPG", "IMG_LIVE.MOV"] ∧
    (liveRemuxStage p P o tmp fs sched cv).zipStored = true := by
  unfold liveRemuxStage at h ⊢
  cases hr : o.remux with
  | fail s => simp [hr] at h
  | timeout => simp [hr] at h
  | ok => rw [hr] at h; exact liveInjectPhotoStage_success h

/-- A successful `runLive` reaches packaging with the plans built from its
parameters. -/
lemma runLive_success {p : LiveParams} {uid : String} {o : LiveOracle}
    (h : (runLive p uid o).status = 200) :
    (runLive p uid o).imageArgs = some (imagePlanOf p) ∧
    (runLive p uid o).videoArgs = some (videoPlanOf p) ∧
    (runLive p uid o).zipEntries = some ["IMG_LIVE.JPG", "IMG_LIVE.MOV"] ∧
    (runLive p uid o).zipStored = true := by
  unfold runLive at h ⊢
  by_cases h1 : o.savePhotoOk
  · by_cases h2 : o.saveVideoOk
    · simp only [h1, h2, Bool.not_true, Bool.false_eq_true, if_false] at h ⊢
      by_cases h3 : needs_conversion p.photo_ext
      · simp only [h3, if_true] at h ⊢
        cases hc : o.conv with
        | fail s => simp [hc] at h
        | timeout => simp [hc] at h
        | ok => rw [hc] at h; exact liveRemuxStage_success h
      · simp only [h3, Bool.false_eq_true, if_false] at h ⊢
        exact liveRemuxStage_success h
    · simp [h1, h2] at h
  · simp [h1] at h

/-- Inversion of `validateLive`: a request it accepts has both files with
allowed extensions, and its extracted parameters have no missing required
field. -/
lemma validateLive_ok_inv {req : LiveRequest} {p : LiveParams}
    (h : validateLive req = .ok p) :
    req.hasPhoto = true ∧ req.hasVideo = true ∧
    req.photoFilename ≠ "" ∧ req.videoFilename ≠ "" ∧
    allowed_image req.photoFilename = true ∧
    allowed_video req.videoFilename = true ∧
    missingRequired (liveParams req) = [] ∧ p = liveParams req := by
  unfold validateLive at h
  repeat' split at h
  all_goals simp_all

/-- Inversion of `validateVideo`. -/
lemma validateVideo_ok_inv {req : VideoRequest} {p : VideoParams}
    (h : validateVideo req = .ok p) :
    req.hasFile = true ∧ req.filename ≠ "" ∧
    allowed_file req.filename = true ∧
    missingRequired3 (videoParams req) = [] ∧ p = videoParams req := by
  unfold validateVideo at h
  repeat' split at h
  all_goals simp_all

/-- A successful `process_live` run validated the request; the recorded
plans and archive come from its parameters. -/
lemma process_live_success {req : LiveRequest} {uid : String} {o : LiveOracle}
    (h : (process_live req uid o).status = 200) :
    (process_live req uid o).imageArgs
      = some (imagePlanOf (liveParams req)) ∧
    (process_live req uid o).videoArgs
      = some (videoPlanOf (liveParams req)) ∧
    (process_live req uid o).zipEntries
      = some ["IMG_LIVE.JPG", "IMG_LIVE.MOV"] ∧
    (process_live req uid o).zipStored = true := by
  unfold process_live at h ⊢
  cases hv : validateLive req with
  | error msg => simp [hv] at h
  | ok p =>
      rw [hv] at h
      have hp : p = liveParams req := (validateLive_ok_inv hv).2.2.2.2.2.2.2
      subst hp
      exact runLive_success h

/-- Every file scheduled by `cleanup_all` (tracked and existing) is in the
schedule with delay 0. -/
lemma mem_cleanupAll {f : String} {tmp fs : List String}
    (h1 : f ∈ tmp) (h2 : f ∈ fs) : (f, 0) ∈ cleanupAll tmp fs := by
  unfold cleanupAll
  exact List.mem_map_of_mem _ (List.mem_filter.2 ⟨h1, List.elem_iff.2 h2⟩)

/-- `request.form.get` returns the stored value when the key is present. -/
lemma formGet_eq_of_find {form : List (String × String)} {key : String}
    {kv : String × String} (h : form.find? (fun e => e.1 == key) = some kv)
    (dflt : String) : formGet form key dflt = kv.2 := by
  unfold formGet
  rw [h]

/-!
Claim theorems.
-/

/-- C1: for every valid pairing request (one that reaches a successful
response), the pairing identifier written into all three image locations
(Apple:ContentIdentifier, XMP-apple-fi:ContentIdentifier,
XMP:ContentIdentifier) and all three video locations (ContentIdentifier,
Keys:ContentIdentifier, com.apple.quicktime.content.identifier) is the
same string, namely the caller's `asset_id` stripped of surrounding
whitespace and uppercased. -/
theorem content_identifier_redundancy (req : LiveRequest) (uid : String)
    (o : LiveOracle) (h : (process_live req uid o).status = 200) :
    ∃ iplan vplan,
      (process_live req uid o).imageArgs = some iplan ∧
      (process_live req uid o).videoArgs = some vplan ∧
      valuesFor iplan "Apple:ContentIdentifier"
        = [pyUpper (pyStrip (formGet req.form "asset_id" ""))] ∧
      valuesFor iplan "XMP-apple-fi:ContentIdentifier"
        = [pyUpper (pyStrip (formGet req.form "asset_id" ""))] ∧
      valuesFor iplan "XMP:ContentIdentifier"
        = [pyUpper (pyStrip (formGet req.form "asset_id" ""))] ∧
      valuesFor vplan "ContentIdentifier"
        = [pyUpper (pyStrip (formGet req.form "asset_id" ""))] ∧
      valuesFor vplan "Keys:ContentIdentifier"
        = [pyUpper (pyStrip (formGet req.form "asset_id" ""))] ∧
      valuesFor vplan "com.apple.quicktime.content.identifier"
        = [pyUpper (pyStrip (formGet req.form "asset_id" ""))] := by
  obtain ⟨hi, hv, -, -⟩ := process_live_success h
  exact ⟨_, _, hi, hv, rfl, rfl, rfl, rfl, rfl, rfl⟩

/-- Witness for C1 at the spec's scenario values (`asset_id`
`"  ab12-cd34  "` becomes `"AB12-CD34"` everywhere). -/
theorem content_identifier_redundancy_witness :
    (process_live sampleLiveReq "u" okLiveOracle).status = 200 ∧
    pyUpper (pyStrip (formGet sampleLiveReq.form "asset_id" "")) = "AB12-CD34" ∧
    (∃ iplan vplan,
      (process_live sampleLiveReq "u" okLiveOracle).imageArgs = some iplan ∧
      (process_live sampleLiveReq "u" okLiveOracle).videoArgs = some vplan ∧
      valuesFor iplan "Apple:ContentIdentifier"
        = [pyUpper (pyStrip (formGet sampleLiveReq.form "asset_id" ""))] ∧
      valuesFor iplan "XMP-apple-fi:ContentIdentifier"
        = [pyUpper (pyStrip (formGet sampleLiveReq.form "asset_id" ""))] ∧
      valuesFor iplan "XMP:ContentIdentifier"
        = [pyUpper (pyStrip (formGet sampleLiveReq.form "asset_id" ""))] ∧
      valuesFor vplan "ContentIdentifier"
        = [pyUpper (pyStrip (formGet sampleLiveReq.form "asset_id" ""))] ∧
      valuesFor vplan "Keys:ContentIdentifier"
        = [pyUpper (pyStrip (formGet sampleLiveReq.form "asset_id" ""))] ∧
      valuesFor vplan "com.apple.quicktime.content.identifier"
        = [pyUpper (pyStrip (formGet sampleLiveReq.form "asset_id" ""))]) :=
  ⟨by decide, by decide,
   content_identifier_redundancy sampleLiveReq "u" okLiveOracle (by decide)⟩

/-- C2: in both pipelines' video plans, Make and Model are each written
into exactly the four namespaces QuickTime, Keys, UserData and the flat
com.apple.quicktime fields (pairwise distinct, one entry each, identical
value), and the date into exactly the six documented date fields. -/
theorem video_make_model_date_redundancy (make model date asset_id : String) :
    makeTags.Nodup ∧ modelTags.Nodup ∧ dateTags.Nodup ∧
    (inject_video_metadata_tags make model date asset_id).filter
        (fun e => makeTags.contains e.1) = makeTags.map (fun t => (t, make)) ∧
    (inject_video_metadata_tags make model date asset_id).filter
        (fun e => modelTags.contains e.1)
      = modelTags.map (fun t => (t, model)) ∧
    (inject_video_metadata_tags make model date asset_id).filter
        (fun e => dateTags.contains e.1) = dateTags.map (fun t => (t, date)) ∧
    (inject_metadata_tags make model date).filter
        (fun e => makeTags.contains e.1) = makeTags.map (fun t => (t, make)) ∧
    (inject_metadata_tags make model date).filter
        (fun e => modelTags.contains e.1)
      = modelTags.map (fun t => (t, model)) ∧
    (inject_metadata_tags make model date).filter
        (fun e => dateTags.contains e.1) = dateTags.map (fun t => (t, date)) :=
  ⟨by decide, by decide, by decide, rfl, rfl, rfl, rfl, rfl, rfl⟩

/-- C3: in both video plans, each handler-name field is first blanked and
then set, within one invocation, so its value sequence is exactly
`["", canonical]` — the last write is the canonical first-party name and
the remux tool's default fingerprint `"VideoHandler"` never appears. -/
theorem handler_cleanse_before_set (make model date asset_id : String) :
    valuesFor (inject_video_metadata_tags make model date asset_id)
        "QuickTime:HandlerName" = ["", "Core Media Video"] ∧
    valuesFor (inject_video_metadata_tags make model date asset_id)
        "QuickTime:VideoHandlerName" = ["", "Core Media Video"] ∧
    valuesFor (inject_video_metadata_tags make model date asset_id)
        "QuickTime:AudioHandlerName" = ["", "Core Media Audio"] ∧
    valuesFor (inject_metadata_tags make model date)
        "QuickTime:HandlerName" = ["", "Core Media Video"] ∧
    valuesFor (inject_metadata_tags make model date)
        "QuickTime:VideoHandlerName" = ["", "Core Media Video"] ∧
    valuesFor (inject_metadata_tags make model date)
        "QuickTime:AudioHandlerName" = ["", "Core Media Audio"] ∧
    "VideoHandler" ∉ valuesFor (inject_video_metadata_tags make model date
        asset_id) "QuickTime:HandlerName" ∧
    "VideoHandler" ∉ valuesFor (inject_video_metadata_tags make model date
        asset_id) "QuickTime:VideoHandlerName" ∧
    "VideoHandler" ∉ valuesFor (inject_video_metadata_tags make model date
        asset_id) "QuickTime:AudioHandlerName" ∧
    "VideoHandler" ∉ valuesFor (inject_metadata_tags make model date)
        "QuickTime:HandlerName" ∧
    "VideoHandler" ∉ valuesFor (inject_metadata_tags make model date)
        "QuickTime:VideoHandlerName" ∧
    "VideoHandler" ∉ valuesFor (inject_metadata_tags make model date)
        "QuickTime:AudioHandlerName" :=
  ⟨rfl, rfl, rfl, rfl, rfl, rfl,
   (by show "VideoHandler" ∉ ["", "Core Media Video"]; decide),
   (by show "VideoHandler" ∉ ["", "Core Media Video"]; decide),
   (by show "VideoHandler" ∉ ["", "Core Media Audio"]; decide),
   (by show "VideoHandler" ∉ ["", "Core Media Video"]; decide),
   (by show "VideoHandler" ∉ ["", "Core Media Video"]; decide),
   (by show "VideoHandler" ∉ ["", "Core Media Audio"]; decide)⟩

/-- C4: every successful pairing response is a store-only (uncompressed)
archive whose entries are exactly `IMG_LIVE.JPG` and `IMG_LIVE.MOV`. -/
theorem zip_store_only_two_entries (req : LiveRequest) (uid : String)
    (o : LiveOracle) (h : (process_live req uid o).status = 200) :
    (process_live req uid o).zipEntries
      = some ["IMG_LIVE.JPG", "IMG_LIVE.MOV"] ∧
    (process_live req uid o).zipStored = true :=
  ⟨(process_live_success h).2.2.1, (process_live_success h).2.2.2⟩

/-- Witness for C4. -/
theorem zip_store_only_two_entries_witness :
    (process_live sampleLiveReq "w" okLiveOracle).status = 200 ∧
    ((process_live sampleLiveReq "w" okLiveOracle).zipEntries
        = some ["IMG_LIVE.JPG", "IMG_LIVE.MOV"] ∧
      (process_live sampleLiveReq "w" okLiveOracle).zipStored = true) :=
  ⟨by decide, zip_store_only_two_entries sampleLiveReq "w" okLiveOracle (by decide)⟩

/-- `takeWhile` passes over a prefix whose elements all satisfy `p`. -/
lemma takeWhile_append_all {p : Char → Bool} {l₁ : List Char} (l₂ : List Char)
    (h : ∀ a ∈ l₁, p a = true) :
    (l₁ ++ l₂).takeWhile p = l₁ ++ l₂.takeWhile p := by
  induction l₁ with
  | nil => simp
  | cons a l ih =>
      rw [List.cons_append, List.takeWhile_cons, h a (List.mem_cons_self a l),
        ih (fun b hb => h b (List.mem_cons_of_mem a hb))]
      rfl

/-- The substring after the last dot of `s ++ "." ++ e` is `e` whenever `e`
itself contains no dot. -/
lemma extAfterLastDot_append (s e : String) (he : pyContains e '.' = false) :
    extAfterLastDot (s ++ "." ++ e) = e := by
  have hne : e.data.contains '.' = false := he
  have hall : ∀ a ∈ e.data.reverse, (a != '.') = true := by
    intro a ha
    rw [List.mem_reverse] at ha
    have hne2 : a ≠ '.' := by
      intro hEq
      subst hEq
      have hmem : e.data.contains '.' = true := List.elem_iff.mpr ha
      rw [hne] at hmem
      exact Bool.false_ne_true hmem
    simp [hne2]
  apply congrArg String.mk
  show ((s ++ "." ++ e).data.reverse.takeWhile (fun c => c != '.')).reverse
      = e.data
  rw [String.data_append, String.data_append]
  rw [List.reverse_append, List.reverse_append]
  rw [takeWhile_append_all _ hall]
  simp

/-- `s ++ "." ++ e` always contains a dot. -/
lemma pyContains_dot_append (s e : String) :
    pyContains (s ++ "." ++ e) '.' = true := by
  unfold pyContains
  rw [String.data_append, String.data_append]
  exact List.elem_iff.mpr (by simp)

/-- A filename without a dot passes none of the three extension checks. -/
lemma allowed_noDot {s : String} (h : pyContains s '.' = false) :
    allowed_video s = false ∧ allowed_image s = false ∧
    allowed_file s = false := by
  unfold allowed_video allowed_image allowed_file
  simp [h]

/-- For a dot-free extension, each check compares only the lowercased
extension against its allowlist. -/
lemma allowed_ext_eq (s e : String) (he : pyContains e '.' = false) :
    allowed_video (s ++ "." ++ e) = ALLOWED_VIDEO_EXT.contains (pyLower e) ∧
    allowed_image (s ++ "." ++ e) = ALLOWED_IMAGE_EXT.contains (pyLower e) ∧
    allowed_file (s ++ "." ++ e) = ALLOWED_EXTENSIONS.contains (pyLower e) := by
  unfold allowed_video allowed_image allowed_file
  rw [extAfterLastDot_append s e he, pyContains_dot_append]
  simp

/-- C8: a request missing a required file field, carrying a disallowed
extension, or missing a required identity field (empty after trimming)
gets a 400 in either pipeline, with no file written to scratch storage and
no deletion scheduled — validation completes before any save. -/
theorem validation_errors_400_no_writes :
    (∀ (req : LiveRequest) (uid : String) (o : LiveOracle),
      (¬(req.hasPhoto = true ∧ req.hasVideo = true) ∨
        allowed_image req.photoFilename = false ∨
        allowed_video req.videoFilename = false ∨
        missingRequired (liveParams req) ≠ []) →
      (process_live req uid o).status = 400 ∧
      (process_live req uid o).written = [] ∧
      (process_live req uid o).scheduled = []) ∧
    (∀ (req : VideoRequest) (uid : String) (o : VideoOracle),
      (req.hasFile = false ∨ allowed_file req.filename = false ∨
        missingRequired3 (videoParams req) ≠ []) →
      (process_video req uid o).status = 400 ∧
      (process_video req uid o).written = [] ∧
      (process_video req uid o).scheduled = []) := by
  constructor
  · intro req uid o hcond
    unfold process_live
    cases hv : validateLive req with
    | error msg => exact ⟨rfl, rfl, rfl⟩
    | ok p =>
        obtain ⟨h1, h2, _, _, h5, h6, h7, _⟩ := validateLive_ok_inv hv
        rcases hcond with hc | hc | hc | hc
        · exact absurd ⟨h1, h2⟩ hc
        · rw [h5] at hc; exact absurd hc (by simp)
        · rw [h6] at hc; exact absurd hc (by simp)
        · exact absurd h7 hc
  · intro req uid o hcond
    unfold process_video
    cases hv : validateVideo req with
    | error msg => exact ⟨rfl, rfl, rfl⟩
    | ok p =>
        obtain ⟨h1, _, h3, h4, _⟩ := validateVideo_ok_inv hv
        rcases hcond with hc | hc | hc
        · rw [h1] at hc; exact absurd hc (by simp)
        · rw [h3] at hc; exact absurd hc (by simp)
        · exact absurd h4 hc

/-- A pairing request with the `video` file field missing. -/
def missingVideoReq : LiveRequest :=
  { hasPhoto := true, hasVideo := false, photoFilename := "a.jpg"
    videoFilename := "", form := [] }

/-- A video-only request whose file has a disallowed extension. -/
def badExtVideoReq : VideoRequest :=
  { hasFile := true, filename := "b.txt"
    form := [("make", "Apple"), ("model", "iPhone"), ("date", "d")] }

/-- Witness for C8: a missing `video` field and a `.txt` upload. -/
theorem validation_errors_400_no_writes_witness :
    ((process_live missingVideoReq "u" okLiveOracle).status = 400 ∧
      (process_live missingVideoReq "u" okLiveOracle).written = [] ∧
      (process_live missingVideoReq "u" okLiveOracle).scheduled = []) ∧
    ((process_video badExtVideoReq "u" okVideoOracle).status = 400 ∧
      (process_video badExtVideoReq "u" okVideoOracle).written = [] ∧
      (process_video badExtVideoReq "u" okVideoOracle).scheduled = []) :=
  ⟨validation_errors_400_no_writes.1 missingVideoReq "u" okLiveOracle
      (Or.inl (by decide)),
   validation_errors_400_no_writes.2 badExtVideoReq "u" okVideoOracle
      (Or.inr (Or.inl (by decide)))⟩

/-- C10: extension validation in both services looks only at the substring
after the last dot, lowercased, against the allowlist (hence
case-insensitive matching), and a filename with no dot at all is rejected
with the 400 disallowed-extension error before anything is saved. -/
theorem extension_check_last_dot_lowercase :
    (∀ s : String, pyContains s '.' = false →
      allowed_video s = false ∧ allowed_image s = false ∧
      allowed_file s = false) ∧
    (∀ s e : String, pyContains e '.' = false →
      allowed_video (s ++ "." ++ e) = ALLOWED_VIDEO_EXT.contains (pyLower e) ∧
      allowed_image (s ++ "." ++ e) = ALLOWED_IMAGE_EXT.contains (pyLower e) ∧
      allowed_file (s ++ "." ++ e) = ALLOWED_EXTENSIONS.contains (pyLower e)) ∧
    (∀ (req : VideoRequest) (uid : String) (o : VideoOracle),
      req.hasFile = true → req.filename ≠ "" →
      pyContains req.filename '.' = false →
      (process_video req uid o).status = 400 ∧
      (process_video req uid o).error = some "仅支持 mp4 / mov 格式" ∧
      (process_video req uid o).written = []) ∧
    (∀ (req : LiveRequest) (uid : String) (o : LiveOracle),
      req.hasPhoto = true → req.hasVideo = true →
      req.photoFilename ≠ "" → req.videoFilename ≠ "" →
      pyContains req.photoFilename '.' = false →
      (process_live req uid o).status = 400 ∧
      (process_live req uid o).error
        = some "图片仅支持 jpg/jpeg/png/heic/heif/webp" ∧
      (process_live req uid o).written = []) := by
  refine ⟨fun s h => allowed_noDot h, fun s e he => allowed_ext_eq s e he,
    ?_, ?_⟩
  · intro req uid o h1 h2 h3
    have hfn : (req.filename == "") = false := by simp [h2]
    have haf : allowed_file req.filename = false := (allowed_noDot h3).2.2
    unfold process_video validateVideo
    simp [h1, hfn, haf]
  · intro req uid o h1 h2 h3 h4 h5
    have hfn : (req.photoFilename == "") = false := by simp [h3]
    have hfn2 : (req.videoFilename == "") = false := by simp [h4]
    have hai : allowed_image req.photoFilename = false := (allowed_noDot h5).2.1
    unfold process_live validateLive
    simp [h1, h2, hfn, hfn2, hai]

/-- A video-only request whose filename has no dot. -/
def noDotVideoReq : VideoRequest :=
  { hasFile := true, filename := "noext"
    form := [("make", "Apple"), ("model", "iPhone"), ("date", "d")] }

/-- Witness for C10: `.MOV` uppercase is accepted; a dot-free filename is
rejected with the disallowed-extension 400. -/
theorem extension_check_last_dot_lowercase_witness :
    (allowed_video ("clip" ++ "." ++ "MOV")
      = ALLOWED_VIDEO_EXT.contains (pyLower "MOV")) ∧
    allowed_video "clip.MOV" = true ∧
    ((process_video noDotVideoReq "u" okVideoOracle).status = 400 ∧
      (process_video noDotVideoReq "u" okVideoOracle).error
        = some "仅支持 mp4 / mov 格式" ∧
      (process_video noDotVideoReq "u" okVideoOracle).written = []) :=
  ⟨(extension_check_last_dot_lowercase.2.1 "clip" "MOV" (by decide)).1,
   by decide,
   extension_check_last_dot_lowercase.2.2.1 noDotVideoReq "u" okVideoOracle
     (by decide) (by decide) (by decide)⟩

/-- `request.form.get` returns the default when the key is absent. -/
lemma formGet_eq_of_none {form : List (String × String)} {key : String}
    (h : form.find? (fun e => e.1 == key) = none) (dflt : String) :
    formGet form key dflt = dflt := by
  unfold formGet
  rw [h]

/-- The head surviving a `dropWhile` fails the predicate. -/
lemma dropWhile_head_false {p : Char → Bool} :
    ∀ {l : List Char} {c : Char} {cs : List Char},
      l.dropWhile p = c :: cs → p c = false := by
  intro l
  induction l with
  | nil => intro c cs h; simp [List.dropWhile] at h
  | cons a t ih =>
      intro c cs h
      rw [List.dropWhile_cons] at h
      by_cases hp : p a
      · simp [hp] at h
        exact ih h
      · simp [hp] at h
        rw [← h.1]
        simpa using hp

/-- `dropWhile` is the identity when the head already fails the predicate. -/
lemma dropWhile_eq_self_of_head {p : Char → Bool} {l : List Char}
    (h : ∀ c cs, l = c :: cs → p c = false) : l.dropWhile p = l := by
  cases l with
  | nil => rfl
  | cons a t =>
      rw [List.dropWhile_cons, h a t rfl]
      simp

/-- `stripL` is the identity on a list whose two ends are not whitespace. -/
lemma stripL_eq_self {l : List Char}
    (h1 : ∀ c cs, l = c :: cs → pyIsSpace c = false)
    (h2 : ∀ c cs, l.reverse = c :: cs → pyIsSpace c = false) :
    stripL l = l := by
  unfold stripL
  rw [dropWhile_eq_self_of_head h1, dropWhile_eq_self_of_head h2,
    List.reverse_reverse]

/-- The first character of a stripped list is not whitespace. -/
lemma stripL_head_false {l : List Char} {c : Char} {cs : List Char}
    (h : stripL l = c :: cs) : pyIsSpace c = false := by
  unfold stripL at h
  have hrev : (l.dropWhile pyIsSpace).reverse.dropWhile pyIsSpace
      = (c :: cs).reverse := by
    rw [← h, List.reverse_reverse]
  have hsplit := List.takeWhile_append_dropWhile pyIsSpace
    (l.dropWhile pyIsSpace).reverse
  rw [hrev] at hsplit
  have hl := congrArg List.reverse hsplit
  rw [List.reverse_append, List.reverse_reverse, List.reverse_reverse] at hl
  exact dropWhile_head_false hl.symm

/-- Appending the fixed lens suffix to an already-stripped nonempty string
is `strip`-invariant: stripping changes nothing. -/
lemma pyStrip_append_fixed {m raw : String} (hm : m = pyStrip raw)
    (hne : m ≠ "") :
    pyStrip (m ++ " 后置摄像头") = m ++ " 后置摄像头" := by
  obtain ⟨c, cs, hcons⟩ : ∃ c cs, m.data = c :: cs := by
    cases hM : m.data with
    | nil => exact absurd (congrArg String.mk hM) hne
    | cons a t => exact ⟨a, t, rfl⟩
  have hd : stripL raw.data = c :: cs := by
    rw [← hcons]
    exact (congrArg String.data hm).symm
  have hc : pyIsSpace c = false := stripL_head_false hd
  apply congrArg String.mk
  show stripL ((m ++ " 后置摄像头").data) = (m ++ " 后置摄像头").data
  rw [String.data_append, hcons]
  apply stripL_eq_self
  · intro x xs hE
    rw [List.cons_append] at hE
    injection hE with hE1 _
    rw [← hE1]
    exact hc
  · intro x xs hE
    rw [List.reverse_append,
      (by decide : (" 后置摄像头" : String).data.reverse
        = '头' :: ("像摄置后 " : String).data),
      List.cons_append] at hE
    injection hE with hE1 _
    rw [← hE1]
    decide

/-- A passing required-field check means all four identity fields are
nonempty after stripping. -/
lemma missingRequired_nil {p : LiveParams} (h : missingRequired p = []) :
    p.make ≠ "" ∧ p.model ≠ "" ∧ p.date ≠ "" ∧ p.asset_id ≠ "" := by
  unfold missingRequired at h
  by_cases h1 : p.make == "" <;> by_cases h2 : p.model == "" <;>
    by_cases h3 : p.date == "" <;> by_cases h4 : p.asset_id == "" <;>
    simp_all

/-- C5 (amended): when an optional shot parameter is absent from the form
of a valid pairing request, its documented default is used — aperture
1.78, focal 24, focal35 24, ISO 100, width 4032, height 3024 — and the
lens description defaults to `<model> 后置摄像头` ("<model> rear camera"
in Chinese), where `<model>` is the caller's trimmed model. The image
plan carries these fields verbatim. -/
theorem shot_parameter_defaults (req : LiveRequest) (p : LiveParams)
    (h : validateLive req = .ok p) :
    (req.form.find? (fun e => e.1 == "aperture") = none →
      p.aperture = "1.78") ∧
    (req.form.find? (fun e => e.1 == "focal") = none → p.focal = "24") ∧
    (req.form.find? (fun e => e.1 == "focal35") = none → p.focal35 = "24") ∧
    (req.form.find? (fun e => e.1 == "iso") = none → p.iso = "100") ∧
    (req.form.find? (fun e => e.1 == "width") = none → p.width = "4032") ∧
    (req.form.find? (fun e => e.1 == "height") = none → p.height = "3024") ∧
    (req.form.find? (fun e => e.1 == "lens") = none →
      p.lens = p.model ++ " 后置摄像头") ∧
    valuesFor (imagePlanOf p) "FNumber" = [p.aperture] ∧
    valuesFor (imagePlanOf p) "FocalLength" = [p.focal] ∧
    valuesFor (imagePlanOf p) "FocalLengthIn35mmFormat" = [p.focal35] ∧
    valuesFor (imagePlanOf p) "ISO" = [p.iso] ∧
    valuesFor (imagePlanOf p) "ExifImageWidth" = [p.width] ∧
    valuesFor (imagePlanOf p) "ExifImageHeight" = [p.height] ∧
    valuesFor (imagePlanOf p) "LensModel" = [p.lens] := by
  obtain ⟨-, -, -, -, -, -, hmiss, hp⟩ := validateLive_ok_inv h
  subst hp
  refine ⟨?_, ?_, ?_, ?_, ?_, ?_, ?_, rfl, rfl, rfl, rfl, rfl, rfl, rfl⟩
  · intro hn
    show pyStrip (formGet req.form "aperture" "1.78") = "1.78"
    rw [formGet_eq_of_none hn]
    decide
  · intro hn
    show pyStrip (formGet req.form "focal" "24") = "24"
    rw [formGet_eq_of_none hn]
    decide
  · intro hn
    show pyStrip (formGet req.form "focal35" "24") = "24"
    rw [formGet_eq_of_none hn]
    decide
  · intro hn
    show pyStrip (formGet req.form "iso" "100") = "100"
    rw [formGet_eq_of_none hn]
    decide
  · intro hn
    show pyStrip (formGet req.form "width" "4032") = "4032"
    rw [formGet_eq_of_none hn]
    decide
  · intro hn
    show pyStrip (formGet req.form "height" "3024") = "3024"
    rw [formGet_eq_of_none hn]
    decide
  · intro hn
    have hmodel : pyStrip (formGet req.form "model" "") ≠ "" :=
      (missingRequired_nil hmiss).2.1
    show pyStrip (formGet req.form "lens"
        (pyStrip (formGet req.form "model" "") ++ " 后置摄像头"))
      = pyStrip (formGet req.form "model" "") ++ " 后置摄像头"
    rw [formGet_eq_of_none hn]
    exact pyStrip_append_fixed rfl hmodel

/-- Counterexample for C5 as stated: with no `lens` field and model
`iPhone 17 Pro Max`, the lens default is `iPhone 17 Pro Max 后置摄像头`,
not the ASCII string `iPhone 17 Pro Max rear camera`. -/
theorem lens_default_counterexample :
    sampleLiveReq.form.find? (fun e => e.1 == "lens") = none ∧
    validateLive sampleLiveReq = .ok (liveParams sampleLiveReq) ∧
    (liveParams sampleLiveReq).lens ≠ "iPhone 17 Pro Max rear camera" ∧
    (liveParams sampleLiveReq).lens = "iPhone 17 Pro Max 后置摄像头" :=
  ⟨by decide, by rfl, by decide, by decide⟩

/-- Witness for C5 on a request with every optional field absent. -/
theorem shot_parameter_defaults_witness :
    (liveParams sampleLiveReq).aperture = "1.78" ∧
    (liveParams sampleLiveReq).focal = "24" ∧
    (liveParams sampleLiveReq).focal35 = "24" ∧
    (liveParams sampleLiveReq).iso = "100" ∧
    (liveParams sampleLiveReq).width = "4032" ∧
    (liveParams sampleLiveReq).height = "3024" ∧
    (liveParams sampleLiveReq).lens
      = (liveParams sampleLiveReq).model ++ " 后置摄像头" :=
  ⟨(shot_parameter_defaults sampleLiveReq _ (by rfl)).1 (by decide),
   (shot_parameter_defaults sampleLiveReq _ (by rfl)).2.1 (by decide),
   (shot_parameter_defaults sampleLiveReq _ (by rfl)).2.2.1 (by decide),
   (shot_parameter_defaults sampleLiveReq _ (by rfl)).2.2.2.1 (by decide),
   (shot_parameter_defaults sampleLiveReq _ (by rfl)).2.2.2.2.1 (by decide),
   (shot_parameter_defaults sampleLiveReq _ (by rfl)).2.2.2.2.2.1 (by decide),
   (shot_parameter_defaults sampleLiveReq _ (by rfl)).2.2.2.2.2.2.1 (by decide)⟩

/-- C9: the defaults apply only when the form field is entirely absent —
a present, whitespace-only optional value reaches the parameters (and the
image plan) as the empty string, not as the documented default. -/
theorem whitespace_optional_param_empty (req : LiveRequest) (p : LiveParams)
    (h : validateLive req = .ok p) :
    (∀ kv, req.form.find? (fun e => e.1 == "aperture") = some kv →
      pyStrip kv.2 = "" →
      p.aperture = "" ∧ valuesFor (imagePlanOf p) "FNumber" = [""]) ∧
    (∀ kv, req.form.find? (fun e => e.1 == "focal") = some kv →
      pyStrip kv.2 = "" →
      p.focal = "" ∧ valuesFor (imagePlanOf p) "FocalLength" = [""]) ∧
    (∀ kv, req.form.find? (fun e => e.1 == "focal35") = some kv →
      pyStrip kv.2 = "" →
      p.focal35 = "" ∧
        valuesFor (imagePlanOf p) "FocalLengthIn35mmFormat" = [""]) ∧
    (∀ kv, req.form.find? (fun e => e.1 == "iso") = some kv →
      pyStrip kv.2 = "" →
      p.iso = "" ∧ valuesFor (imagePlanOf p) "ISO" = [""]) ∧
    (∀ kv, req.form.find? (fun e => e.1 == "lens") = some kv →
      pyStrip kv.2 = "" →
      p.lens = "" ∧ valuesFor (imagePlanOf p) "LensModel" = [""]) ∧
    (∀ kv, req.form.find? (fun e => e.1 == "width") = some kv →
      pyStrip kv.2 = "" →
      p.width = "" ∧ valuesFor (imagePlanOf p) "ExifImageWidth" = [""]) ∧
    (∀ kv, req.form.find? (fun e => e.1 == "height") = some kv →
      pyStrip kv.2 = "" →
      p.height = "" ∧ valuesFor (imagePlanOf p) "ExifImageHeight" = [""]) := by
  have hp : p = liveParams req := (validateLive_ok_inv h).2.2.2.2.2.2.2
  subst hp
  refine ⟨?_, ?_, ?_, ?_, ?_, ?_, ?_⟩ <;> intro kv hkv hws
  · have ha : (liveParams req).aperture = "" := by
      show pyStrip (formGet req.form "aperture" "1.78") = ""
      rw [formGet_eq_of_find hkv]
      exact hws
    exact ⟨ha, congrArg (fun v => [v]) ha⟩
  · have ha : (liveParams req).focal = "" := by
      show pyStrip (formGet req.form "focal" "24") = ""
      rw [formGet_eq_of_find hkv]
      exact hws
    exact ⟨ha, congrArg (fun v => [v]) ha⟩
  · have ha : (liveParams req).focal35 = "" := by
      show pyStrip (formGet req.form "focal35" "24") = ""
      rw [formGet_eq_of_find hkv]
      exact hws
    exact ⟨ha, congrArg (fun v => [v]) ha⟩
  · have ha : (liveParams req).iso = "" := by
      show pyStrip (formGet req.form "iso" "100") = ""
      rw [formGet_eq_of_find hkv]
      exact hws
    exact ⟨ha, congrArg (fun v => [v]) ha⟩
  · have ha : (liveParams req).lens = "" := by
      show pyStrip (formGet req.form "lens"
        (pyStrip (formGet req.form "model" "") ++ " 后置摄像头")) = ""
      rw [formGet_eq_of_find hkv]
      exact hws
    exact ⟨ha, congrArg (fun v => [v]) ha⟩
  · have ha : (liveParams req).width = "" := by
      show pyStrip (formGet req.form "width" "4032") = ""
      rw [formGet_eq_of_find hkv]
      exact hws
    exact ⟨ha, congrArg (fun v => [v]) ha⟩
  · have ha : (liveParams req).height = "" := by
      show pyStrip (formGet req.form "height" "3024") = ""
      rw [formGet_eq_of_find hkv]
      exact hws
    exact ⟨ha, congrArg (fun v => [v]) ha⟩

/-- The sample request with every optional shot parameter present but
whitespace-only. -/
def wsOptReq : LiveRequest :=
  { sampleLiveReq with form := sampleLiveReq.form ++
      [("aperture", "  "), ("focal", " "), ("focal35", "\t"), ("iso", " "),
       ("lens", "   "), ("width", " "), ("height", " ")] }

/-- Witness for C9: whitespace-only optional fields end up empty, not at
their defaults. -/
theorem whitespace_optional_param_empty_witness :
    ((liveParams wsOptReq).aperture = "" ∧
      valuesFor (imagePlanOf (liveParams wsOptReq)) "FNumber" = [""]) ∧
    ((liveParams wsOptReq).lens = "" ∧
      valuesFor (imagePlanOf (liveParams wsOptReq)) "LensModel" = [""]) ∧
    (liveParams wsOptReq).aperture ≠ "1.78" :=
  ⟨(whitespace_optional_param_empty wsOptReq _ (by rfl)).1
      ("aperture", "  ") (by decide) (by decide),
   (whitespace_optional_param_empty wsOptReq _ (by rfl)).2.2.2.2.1
      ("lens", "   ") (by decide) (by decide),
   by decide⟩

/-- Every stage propagates the conversion flag unchanged (packaging). -/
lemma liveZipStage_convRan (p : LiveParams) (P : LivePaths) (o : LiveOracle)
    (tmp fs : List String) (sched : List (String × Nat)) (cv : Bool) :
    (liveZipStage p P o tmp fs sched cv).convRan = cv := by
  unfold liveZipStage
  split <;> rfl

/-- Every stage propagates the conversion flag unchanged (video inject). -/
lemma liveInjectVideoStage_convRan (p : LiveParams) (P : LivePaths)
    (o : LiveOracle) (tmp fs : List String) (sched : List (String × Nat))
    (cv : Bool) :
    (liveInjectVideoStage p P o tmp fs sched cv).convRan = cv := by
  unfold liveInjectVideoStage
  cases o.injVideo with
  | fail s => rfl
  | timeout => rfl
  | ok => exact liveZipStage_convRan p P o tmp fs sched cv

/-- Every stage propagates the conversion flag unchanged (image inject). -/
lemma liveInjectPhotoStage_convRan (p : LiveParams) (P : LivePaths)
    (o : LiveOracle) (tmp fs : List String) (sched : List (String × Nat))
    (cv : Bool) :
    (liveInjectPhotoStage p P o tmp fs sched cv).convRan = cv := by
  unfold liveInjectPhotoStage
  cases o.injPhoto with
  | fail s => rfl
  | timeout => rfl
  | ok => exact liveInjectVideoStage_convRan p P o tmp fs sched cv

/-- Every stage propagates the conversion flag unchanged (remux). -/
lemma liveRemuxStage_convRan (p : LiveParams) (P : LivePaths) (o : LiveOracle)
    (tmp fs : List String) (sched : List (String × Nat)) (cv : Bool) :
    (liveRemuxStage p P o tmp fs sched cv).convRan = cv := by
  unfold liveRemuxStage
  cases o.remux with
  | fail s => rfl
  | timeout => rfl
  | ok =>
      exact liveInjectPhotoStage_convRan p P o tmp (fs ++ [P.out_video])
        (sched ++ [(P.src_video, 0)]) cv

/-- Once both saves succeed, the conversion flag of the outcome is exactly
the conversion condition of dt_app.py line 387. -/
lemma runLive_convRan (p : LiveParams) (uid : String) (o : LiveOracle)
    (h1 : o.savePhotoOk = true) (h2 : o.saveVideoOk = true) :
    (runLive p uid o).convRan = needs_conversion p.photo_ext := by
  unfold runLive
  simp only [h1, h2, Bool.not_true, Bool.false_eq_true, if_false]
  by_cases h3 : needs_conversion p.photo_ext
  · rw [if_pos h3, h3]
    cases o.conv with
    | fail s => rfl
    | timeout => rfl
    | ok => exact liveRemuxStage_convRan _ _ _ _ _ _ _
  · rw [if_neg h3]
    have h3f : needs_conversion p.photo_ext = false := by simpa using h3
    rw [h3f]
    exact liveRemuxStage_convRan _ _ _ _ _ _ _

/-- Deletions already scheduled stay scheduled (packaging). -/
lemma liveZipStage_sched_mono {x : String × Nat} (p : LiveParams)
    (P : LivePaths) (o : LiveOracle) (tmp fs : List String)
    (sched : List (String × Nat)) (cv : Bool) (hx : x ∈ sched) :
    x ∈ (liveZipStage p P o tmp fs sched cv).scheduled := by
  unfold liveZipStage
  split <;> exact List.mem_append_left _ hx

/-- Deletions already scheduled stay scheduled (video inject). -/
lemma liveInjectVideoStage_sched_mono {x : String × Nat} (p : LiveParams)
    (P : LivePaths) (o : LiveOracle) (tmp fs : List String)
    (sched : List (String × Nat)) (cv : Bool) (hx : x ∈ sched) :
    x ∈ (liveInjectVideoStage p P o tmp fs sched cv).scheduled := by
  unfold liveInjectVideoStage
  cases o.injVideo with
  | fail s => exact List.mem_append_left _ hx
  | timeout => exact List.mem_append_left _ hx
  | ok => exact liveZipStage_sched_mono p P o tmp fs sched cv hx

/-- Deletions already scheduled stay scheduled (image inject). -/
lemma liveInjectPhotoStage_sched_mono {x : String × Nat} (p : LiveParams)
    (P : LivePaths) (o : LiveOracle) (tmp fs : List String)
    (sched : List (String × Nat)) (cv : Bool) (hx : x ∈ sched) :
    x ∈ (liveInjectPhotoStage p P o tmp fs sched cv).scheduled := by
  unfold liveInjectPhotoStage
  cases o.injPhoto with
  | fail s => exact List.mem_append_left _ hx
  | timeout => exact List.mem_append_left _ hx
  | ok => exact liveInjectVideoStage_sched_mono p P o tmp fs sched cv hx

/-- Deletions already scheduled stay scheduled (remux). -/
lemma liveRemuxStage_sched_mono {x : String × Nat} (p : LiveParams)
    (P : LivePaths) (o : LiveOracle) (tmp fs : List String)
    (sched : List (String × Nat)) (cv : Bool) (hx : x ∈ sched) :
    x ∈ (liveRemuxStage p P o tmp fs sched cv).scheduled := by
  unfold liveRemuxStage
  cases o.remux with
  | fail s => exact List.mem_append_left _ (List.mem_append_left _ hx)
  | timeout => exact List.mem_append_left _ (List.mem_append_left _ hx)
  | ok =>
      exact liveInjectPhotoStage_sched_mono p P o tmp (fs ++ [P.out_video])
        (sched ++ [(P.src_video, 0)]) cv (List.mem_append_left _ hx)

/-- C6 (amended): only jpg/jpeg uploads skip the conversion step — every
other allowed image format (png, heic, heif, webp, …) is converted first.
The converted intermediate is scheduled for immediate deletion when
conversion succeeds, and also when it exits non-zero leaving a partial
file (via `cleanup_all`); only on a conversion timeout — which escapes
the `RuntimeError`-only handler — is a partially written intermediate
left unscheduled. -/
theorem image_conversion_condition :
    (∀ ext : String,
      needs_conversion ext = false ↔ ext = "jpg" ∨ ext = "jpeg") ∧
    (∀ (p : LiveParams) (uid : String) (o : LiveOracle),
      o.savePhotoOk = true → o.saveVideoOk = true →
      (runLive p uid o).convRan = needs_conversion p.photo_ext) ∧
    (∀ (p : LiveParams) (uid : String) (o : LiveOracle),
      o.savePhotoOk = true → o.saveVideoOk = true →
      needs_conversion p.photo_ext = true → o.conv = .ok →
      ((livePaths p uid).conv_photo, 0) ∈ (runLive p uid o).scheduled) ∧
    (∀ (p : LiveParams) (uid : String) (o : LiveOracle) (stderr : String),
      o.savePhotoOk = true → o.saveVideoOk = true →
      needs_conversion p.photo_ext = true → o.conv = .fail stderr →
      o.convOutExists = true →
      ((livePaths p uid).conv_photo, 0) ∈ (runLive p uid o).scheduled) ∧
    (∀ (p : LiveParams) (uid : String) (o : LiveOracle),
      o.savePhotoOk = true → o.saveVideoOk = true →
      needs_conversion p.photo_ext = true → o.conv = .timeout →
      o.convOutExists = true →
      (livePaths p uid).conv_photo ∈ (runLive p uid o).written ∧
      (runLive p uid o).scheduled = [((livePaths p uid).src_photo, 0)]) := by
  refine ⟨?_, ?_, ?_, ?_, ?_⟩
  · intro ext
    unfold needs_conversion
    simp [List.contains_cons]
    tauto
  · intro p uid o h1 h2
    exact runLive_convRan p uid o h1 h2
  · intro p uid o h1 h2 h3 hc
    unfold runLive
    simp only [h1, h2, Bool.not_true, Bool.false_eq_true, if_false, h3,
      if_true, hc]
    exact liveRemuxStage_sched_mono _ _ _ _ _ _ _ (by simp)
  · intro p uid o stderr h1 h2 h3 hc hoe
    unfold runLive
    simp only [h1, h2, Bool.not_true, Bool.false_eq_true, if_false, h3,
      if_true, hc, hoe]
    apply List.mem_append_left
    apply mem_cleanupAll (by simp)
    simp
  · intro p uid o h1 h2 h3 hc hoe
    unfold runLive
    simp only [h1, h2, Bool.not_true, Bool.false_eq_true, if_false, h3,
      if_true, hc, hoe]
    refine ⟨?_, ?_⟩
    · simp
    · trivial

/-- Counterexample for C6 as stated: a PNG (or HEIC) upload does not skip
the conversion step — the pipeline converts it. -/
theorem png_conversion_counterexample :
    needs_conversion "png" = true ∧ needs_conversion "heic" = true ∧
    (liveParams pngLiveReq).photo_ext = "png" ∧
    (process_live pngLiveReq "u" okLiveOracle).status = 200 ∧
    (process_live pngLiveReq "u" okLiveOracle).convRan = true := by
  refine ⟨by decide, by decide, by decide, by decide, by decide⟩

/-- Oracle in which the image conversion exits non-zero leaving a partial
file. -/
def convFailOracle : LiveOracle :=
  { okLiveOracle with conv := .fail "conv boom", convOutExists := true }

/-- Oracle in which the image conversion times out leaving a partial
file. -/
def convTimeoutOracle : LiveOracle :=
  { okLiveOracle with conv := .timeout, convOutExists := true }

/-- Witness for C6 across the three conversion outcomes. -/
theorem image_conversion_condition_witness :
    (needs_conversion "webp" = false ↔ "webp" = "jpg" ∨ "webp" = "jpeg") ∧
    ((runLive (liveParams pngLiveReq) "u" okLiveOracle).convRan
      = needs_conversion (liveParams pngLiveReq).photo_ext) ∧
    ((livePaths (liveParams pngLiveReq) "u").conv_photo, 0)
      ∈ (runLive (liveParams pngLiveReq) "u" okLiveOracle).scheduled ∧
    ((livePaths (liveParams pngLiveReq) "u").conv_photo, 0)
      ∈ (runLive (liveParams pngLiveReq) "u" convFailOracle).scheduled ∧
    ((livePaths (liveParams pngLiveReq) "u").conv_photo
        ∈ (runLive (liveParams pngLiveReq) "u" convTimeoutOracle).written ∧
      (runLive (liveParams pngLiveReq) "u" convTimeoutOracle).scheduled
        = [((livePaths (liveParams pngLiveReq) "u").src_photo, 0)]) :=
  ⟨image_conversion_condition.1 "webp",
   image_conversion_condition.2.1 (liveParams pngLiveReq) "u" okLiveOracle
     rfl rfl,
   image_conversion_condition.2.2.1 (liveParams pngLiveReq) "u" okLiveOracle
     rfl rfl (by decide) rfl,
   image_conversion_condition.2.2.2.1 (liveParams pngLiveReq) "u"
     convFailOracle "conv boom" rfl rfl (by decide) rfl rfl,
   image_conversion_condition.2.2.2.2 (liveParams pngLiveReq) "u"
     convTimeoutOracle rfl rfl (by decide) rfl rfl⟩

/-- dt remux failure: a 500 with the bounded diagnostic, and every file
written so far is scheduled with delay 0 (via `cleanup_all` plus the
`finally` deletions). -/
lemma liveRemuxStage_fail_cleanup {p : LiveParams} {P : LivePaths}
    {o : LiveOracle} {tmp fs : List String} {sched : List (String × Nat)}
    {cv : Bool} {stderr : String} (hr : o.remux = .fail stderr)
    (hfs : ∀ f ∈ fs, f ∈ tmp) (hout : P.out_video ∈ tmp) :
    (liveRemuxStage p P o tmp fs sched cv).status = 500 ∧
    (liveRemuxStage p P o tmp fs sched cv).error
      = some ("FFmpeg 重封装失败：" ++ pyLast 300 (pyLast 1000 stderr)) ∧
    ∀ f ∈ (liveRemuxStage p P o tmp fs sched cv).written,
      (f, 0) ∈ (liveRemuxStage p P o tmp fs sched cv).scheduled := by
  unfold liveRemuxStage
  rw [hr]
  refine ⟨rfl, rfl, ?_⟩
  intro f hf
  have hftmp : f ∈ tmp := by
    rcases List.mem_append.1 hf with h | h
    · exact hfs f h
    · by_cases hoe : o.remuxOutExists
      · rw [if_pos hoe] at h
        rw [List.mem_singleton.1 h]
        exact hout
      · rw [if_neg hoe] at h
        exact absurd h (List.not_mem_nil f)
  exact List.mem_append_left _
    (List.mem_append_right _ (mem_cleanupAll hftmp hf))

/-- dt image-injection failure: bounded diagnostic and full cleanup. -/
lemma liveInjectPhotoStage_fail_cleanup {p : LiveParams} {P : LivePaths}
    {o : LiveOracle} {tmp fs : List String} {sched : List (String × Nat)}
    {cv : Bool} {stderr : String} (hi : o.injPhoto = .fail stderr)
    (hfs : ∀ f ∈ fs, f ∈ tmp) :
    (liveInjectPhotoStage p P o tmp fs sched cv).status = 500 ∧
    (liveInjectPhotoStage p P o tmp fs sched cv).error
      = some ("图片处理失败：ExifTool 图片注入失败：" ++ pyLast 200 stderr) ∧
    ∀ f ∈ (liveInjectPhotoStage p P o tmp fs sched cv).written,
      (f, 0) ∈ (liveInjectPhotoStage p P o tmp fs sched cv).scheduled := by
  unfold liveInjectPhotoStage
  rw [hi]
  refine ⟨rfl, rfl, ?_⟩
  intro f hf
  exact List.mem_append_right _ (mem_cleanupAll (hfs f hf) hf)

/-- dt video-injection failure: bounded diagnostic and full cleanup. -/
lemma liveInjectPhotoStage_injVideo_fail {p : LiveParams} {P : LivePaths}
    {o : LiveOracle} {tmp fs : List String} {sched : List (String × Nat)}
    {cv : Bool} {stderr : String} (hip : o.injPhoto = .ok)
    (hiv : o.injVideo = .fail stderr) (hfs : ∀ f ∈ fs, f ∈ tmp) :
    (liveInjectPhotoStage p P o tmp fs sched cv).status = 500 ∧
    (liveInjectPhotoStage p P o tmp fs sched cv).error
      = some ("视频处理失败：ExifTool 视频注入失败：" ++ pyLast 200 stderr) ∧
    ∀ f ∈ (liveInjectPhotoStage p P o tmp fs sched cv).written,
      (f, 0) ∈ (liveInjectPhotoStage p P o tmp fs sched cv).scheduled := by
  unfold liveInjectPhotoStage
  rw [hip]
  unfold liveInjectVideoStage
  rw [hiv]
  refine ⟨rfl, rfl, ?_⟩
  intro f hf
  exact List.mem_append_right _ (mem_cleanupAll (hfs f hf) hf)

/-- After successful saves and a skipped or successful conversion,
`runLive` is the remux stage on tracked files that are all in `tmp_files`,
with the remux output tracked too. -/
lemma runLive_reduces {p : LiveParams} {uid : String} {o : LiveOracle}
    (h1 : o.savePhotoOk = true) (h2 : o.saveVideoOk = true)
    (hcv : needs_conversion p.photo_ext = false ∨ o.conv = .ok) :
    ∃ tmp fs sched cv,
      runLive p uid o = liveRemuxStage p (livePaths p uid) o tmp fs sched cv ∧
      (∀ f ∈ fs, f ∈ tmp) ∧ (livePaths p uid).out_video ∈ tmp := by
  unfold runLive
  simp only [h1, h2, Bool.not_true, Bool.false_eq_true, if_false]
  rcases hcv with hnc | hok
  · rw [if_neg (by simp [hnc])]
    exact ⟨_, _, _, _, rfl, by intro f hf; simp at hf ⊢; tauto, by simp⟩
  · by_cases h3 : needs_conversion p.photo_ext
    · rw [if_pos h3, hok]
      exact ⟨_, _, _, _, rfl, by intro f hf; simp at hf ⊢; tauto, by simp⟩
    · rw [if_neg h3]
      exact ⟨_, _, _, _, rfl, by intro f hf; simp at hf ⊢; tauto, by simp⟩

/-- C7 (amended): when the remux or an injection tool exits non-zero, the
response is a 500 whose message contains the tool's bounded diagnostic
(last 300 characters of remux stderr, last 200 of exiftool stderr). In
the pairing pipeline every artifact written so far — the partial remux
output included — is scheduled for immediate deletion. In the video-only
pipeline, only the saved source is scheduled on remux failure (the
partially written remux output is never scheduled on that path, nor on a
remux timeout, whose message is the fixed timeout notice); on injection
failure both the source and the output are scheduled immediately. -/
theorem tool_failure_500_cleanup :
    (∀ (req : LiveRequest) (p : LiveParams) (uid : String) (o : LiveOracle)
        (stderr : String),
      validateLive req = .ok p →
      o.savePhotoOk = true → o.saveVideoOk = true →
      (needs_conversion p.photo_ext = false ∨ o.conv = .ok) →
      o.remux = .fail stderr →
      (process_live req uid o).status = 500 ∧
      (process_live req uid o).error
        = some ("FFmpeg 重封装失败：" ++ pyLast 300 (pyLast 1000 stderr)) ∧
      ∀ f ∈ (process_live req uid o).written,
        (f, 0) ∈ (process_live req uid o).scheduled) ∧
    (∀ (req : LiveRequest) (p : LiveParams) (uid : String) (o : LiveOracle)
        (stderr : String),
      validateLive req = .ok p →
      o.savePhotoOk = true → o.saveVideoOk = true →
      (needs_conversion p.photo_ext = false ∨ o.conv = .ok) →
      o.remux = .ok → o.injPhoto = .fail stderr →
      (process_live req uid o).status = 500 ∧
      (process_live req uid o).error
        = some ("图片处理失败：ExifTool 图片注入失败：" ++ pyLast 200 stderr) ∧
      ∀ f ∈ (process_live req uid o).written,
        (f, 0) ∈ (process_live req uid o).scheduled) ∧
    (∀ (req : LiveRequest) (p : LiveParams) (uid : String) (o : LiveOracle)
        (stderr : String),
      validateLive req = .ok p →
      o.savePhotoOk = true → o.saveVideoOk = true →
      (needs_conversion p.photo_ext = false ∨ o.conv = .ok) →
      o.remux = .ok → o.injPhoto = .ok → o.injVideo = .fail stderr →
      (process_live req uid o).status = 500 ∧
      (process_live req uid o).error
        = some ("视频处理失败：ExifTool 视频注入失败：" ++ pyLast 200 stderr) ∧
      ∀ f ∈ (process_live req uid o).written,
        (f, 0) ∈ (process_live req uid o).scheduled) ∧
    (∀ (req : VideoRequest) (p : VideoParams) (uid : String) (o : VideoOracle)
        (stderr : String),
      validateVideo req = .ok p → o.saveOk = true → o.remux = .fail stderr →
      (process_video req uid o).status = 500 ∧
      (process_video req uid o).error
        = some ("FFmpeg 重封装失败：" ++ pyLast 300 (pyLast 1000 stderr)) ∧
      (process_video req uid o).scheduled
        = [("uploads/src_" ++ uid ++ "." ++ p.src_ext, 0)] ∧
      (o.remuxOutExists = true →
        ("uploads/out_" ++ uid ++ ".mov")
          ∈ (process_video req uid o).written)) ∧
    (∀ (req : VideoRequest) (p : VideoParams) (uid : String) (o : VideoOracle)
        (stderr : String),
      validateVideo req = .ok p → o.saveOk = true → o.remux = .ok →
      o.inj = .fail stderr →
      (process_video req uid o).status = 500 ∧
      (process_video req uid o).error
        = some ("ExifTool 注入失败：" ++ pyLast 200 stderr) ∧
      (process_video req uid o).scheduled
        = [("uploads/src_" ++ uid ++ "." ++ p.src_ext, 0),
           ("uploads/out_" ++ uid ++ ".mov", 0)] ∧
      ∀ f ∈ (process_video req uid o).written,
        (f, 0) ∈ (process_video req uid o).scheduled) ∧
    (∀ (req : VideoRequest) (p : VideoParams) (uid : String)
        (o : VideoOracle),
      validateVideo req = .ok p → o.saveOk = true → o.remux = .timeout →
      (process_video req uid o).status = 500 ∧
      (process_video req uid o).error = some "FFmpeg 处理超时（>5 分钟）" ∧
      (process_video req uid o).scheduled
        = [("uploads/src_" ++ uid ++ "." ++ p.src_ext, 0)]) := by
  refine ⟨?_, ?_, ?_, ?_, ?_, ?_⟩
  · intro req p uid o stderr hval h1 h2 hcv hr
    have hpl : process_live req uid o = runLive p uid o := by
      unfold process_live
      rw [hval]
    rw [hpl]
    obtain ⟨tmp, fs, sched, cv, heq, hfs, hout⟩ := runLive_reduces h1 h2 hcv
    rw [heq]
    exact liveRemuxStage_fail_cleanup hr hfs hout
  · intro req p uid o stderr hval h1 h2 hcv hr hi
    have hpl : process_live req uid o = runLive p uid o := by
      unfold process_live
      rw [hval]
    rw [hpl]
    obtain ⟨tmp, fs, sched, cv, heq, hfs, hout⟩ := runLive_reduces h1 h2 hcv
    rw [heq]
    unfold liveRemuxStage
    rw [hr]
    apply liveInjectPhotoStage_fail_cleanup hi
    intro f hf
    rcases List.mem_append.1 hf with h | h
    · exact hfs f h
    · rw [List.mem_singleton.1 h]
      exact hout
  · intro req p uid o stderr hval h1 h2 hcv hr hip hiv
    have hpl : process_live req uid o = runLive p uid o := by
      unfold process_live
      rw [hval]
    rw [hpl]
    obtain ⟨tmp, fs, sched, cv, heq, hfs, hout⟩ := runLive_reduces h1 h2 hcv
    rw [heq]
    unfold liveRemuxStage
    rw [hr]
    apply liveInjectPhotoStage_injVideo_fail hip hiv
    intro f hf
    rcases List.mem_append.1 hf with h | h
    · exact hfs f h
    · rw [List.mem_singleton.1 h]
      exact hout
  · intro req p uid o stderr hval hs hr
    have hpv : process_video req uid o = runVideo p uid o := by
      unfold process_video
      rw [hval]
    rw [hpv]
    unfold runVideo
    simp only [hs, Bool.not_true, Bool.false_eq_true, if_false]
    rw [hr]
    refine ⟨rfl, rfl, rfl, ?_⟩
    intro hoe
    simp [hoe]
  · intro req p uid o stderr hval hs hr hi
    have hpv : process_video req uid o = runVideo p uid o := by
      unfold process_video
      rw [hval]
    rw [hpv]
    unfold runVideo
    simp only [hs, Bool.not_true, Bool.false_eq_true, if_false]
    rw [hr, hi]
    refine ⟨rfl, rfl, rfl, ?_⟩
    intro f hf
    simp only [List.mem_cons, List.not_mem_nil, or_false] at hf
    rcases hf with h | h <;> subst h <;> simp
  · intro req p uid o hval hs hr
    have hpv : process_video req uid o = runVideo p uid o := by
      unfold process_video
      rw [hval]
    rw [hpv]
    unfold runVideo
    simp only [hs, Bool.not_true, Bool.false_eq_true, if_false]
    rw [hr]
    exact ⟨rfl, rfl, rfl⟩

/-- Video-only oracle: remux exits non-zero leaving a partial output. -/
def remuxFailVideoOracle : VideoOracle :=
  { okVideoOracle with remux := .fail "remux boom", remuxOutExists := true }

/-- Counterexample for C7 as stated: in the video-only pipeline, when the
remux tool fails after partially writing its output, that output file is
among the artifacts created but is never scheduled for cleanup — only the
saved source is. -/
theorem remux_partial_output_not_cleaned :
    (process_video sampleVideoReq "u" remuxFailVideoOracle).status = 500 ∧
    "uploads/out_u.mov"
      ∈ (process_video sampleVideoReq "u" remuxFailVideoOracle).written ∧
    (process_video sampleVideoReq "u" remuxFailVideoOracle).scheduled
      = [("uploads/src_u.mp4", 0)] ∧
    ((process_video sampleVideoReq "u" remuxFailVideoOracle).scheduled.filter
      (fun e => e.1 == "uploads/out_u.mov")) = [] := by
  refine ⟨by decide, by decide, by decide, by decide⟩

/-- Pairing-pipeline oracle: remux exits non-zero leaving a partial
output. -/
def remuxFailLiveOracle : LiveOracle :=
  { okLiveOracle with remux := .fail "remux boom", remuxOutExists := true }

/-- Video-only oracle: injection exits non-zero. -/
def injFailVideoOracle : VideoOracle :=
  { okVideoOracle with inj := .fail "exif boom" }

/-- Video-only oracle: remux exceeds its timeout. -/
def remuxTimeoutVideoOracle : VideoOracle :=
  { okVideoOracle with remux := .timeout }

/-- Witness for C7: a failing remux in the pairing pipeline schedules even
the partial remux output; a failing injection in the video-only pipeline
schedules the output; a remux timeout there yields the fixed notice. -/
theorem tool_failure_500_cleanup_witness :
    ((process_live sampleLiveReq "u" remuxFailLiveOracle).status = 500 ∧
      (process_live sampleLiveReq "u" remuxFailLiveOracle).error
        = some ("FFmpeg 重封装失败："
            ++ pyLast 300 (pyLast 1000 "remux boom")) ∧
      ("uploads_dt/out_video_u.mov", 0)
        ∈ (process_live sampleLiveReq "u" remuxFailLiveOracle).scheduled) ∧
    ((process_video sampleVideoReq "u" injFailVideoOracle).status = 500 ∧
      (process_video sampleVideoReq "u" injFailVideoOracle).error
        = some ("ExifTool 注入失败：" ++ pyLast 200 "exif boom") ∧
      (process_video sampleVideoReq "u" injFailVideoOracle).scheduled
        = [("uploads/src_" ++ "u" ++ "."
              ++ (videoParams sampleVideoReq).src_ext, 0),
           ("uploads/out_" ++ "u" ++ ".mov", 0)]) ∧
    (process_video sampleVideoReq "u" remuxTimeoutVideoOracle).error
      = some "FFmpeg 处理超时（>5 分钟）" :=
  ⟨⟨(tool_failure_500_cleanup.1 sampleLiveReq (liveParams sampleLiveReq) "u"
        remuxFailLiveOracle "remux boom" (by rfl) rfl rfl
        (Or.inl (by decide)) rfl).1,
    (tool_failure_500_cleanup.1 sampleLiveReq (liveParams sampleLiveReq) "u"
        remuxFailLiveOracle "remux boom" (by rfl) rfl rfl
        (Or.inl (by decide)) rfl).2.1,
    (tool_failure_500_cleanup.1 sampleLiveReq (liveParams sampleLiveReq) "u"
        remuxFailLiveOracle "remux boom" (by rfl) rfl rfl
        (Or.inl (by decide)) rfl).2.2 "uploads_dt/out_video_u.mov"
        (by decide)⟩,
   ⟨(tool_failure_500_cleanup.2.2.2.2.1 sampleVideoReq
        (videoParams sampleVideoReq) "u" injFailVideoOracle "exif boom"
        (by rfl) rfl rfl rfl).1,
    (tool_failure_500_cleanup.2.2.2.2.1 sampleVideoReq
        (videoParams sampleVideoReq) "u" injFailVideoOracle "exif boom"
        (by rfl) rfl rfl rfl).2.1,
    (tool_failure_500_cleanup.2.2.2.2.1 sampleVideoReq
        (videoParams sampleVideoReq) "u" injFailVideoOracle "exif boom"
        (by rfl) rfl rfl rfl).2.2.1⟩,
   (tool_failure_500_cleanup.2.2.2.2.2 sampleVideoReq
        (videoParams sampleVideoReq) "u" remuxTimeoutVideoOracle
        (by rfl) rfl rfl).2.1⟩
